import Mathlib

/-!
Shallow embedding of the Finora client (Boot41/lijo-finora): the expense
categorization page (src/client/src/pages/ExpenseCategories.tsx and the
variant kept as src/unnamed/part_002) and the search page
(src/client/src/pages/SearchInterface.tsx).

Modelling choices: JS numbers (amounts, confidence scores) are rationals;
the insertion-ordered JS Map is an association list in insertion order
(Map.set updates an existing key in place and appends a new key at the
end); the stable Array.prototype.sort with comparator
(a, b) => b.total - a.total is List.mergeSort with the Boolean order
fun a b => decide (b.total ≤ a.total), which is stable and places larger
totals first, exactly as the ECMAScript stable sort does.
-/

inductive TxType
  | debit
  | credit
  deriving DecidableEq

/-- Transaction record from ExpenseCategories.tsx (both variants declare the
same interface). -/
structure Transaction where
  id : String
  date : String
  description : String
  amount : ℚ
  type : TxType
  category : String
  confidence : ℚ
  deriving DecidableEq

/-- CategorySummary of ExpenseCategories.tsx: name, total, count, color,
icon. This variant has no percentage field. -/
structure CategorySummary where
  name : String
  total : ℚ
  count : ℕ
  color : String
  icon : String
  deriving DecidableEq

/-- CategorySummary of the part_002 variant: additionally carries a
percentage field. -/
structure CategorySummaryP002 where
  name : String
  total : ℚ
  count : ℕ
  percentage : ℚ
  color : String
  icon : String
  deriving DecidableEq

/-- CATEGORY_COLORS table of ExpenseCategories.tsx. -/
def CATEGORY_COLORS : List (String × String) :=
  [("Food & Dining", "bg-red-100 text-red-800 border-red-200"),
   ("Transportation", "bg-blue-100 text-blue-800 border-blue-200"),
   ("Shopping", "bg-purple-100 text-purple-800 border-purple-200"),
   ("Bills & Utilities", "bg-yellow-100 text-yellow-800 border-yellow-200"),
   ("Healthcare", "bg-green-100 text-green-800 border-green-200"),
   ("Entertainment", "bg-pink-100 text-pink-800 border-pink-200"),
   ("Travel", "bg-indigo-100 text-indigo-800 border-indigo-200"),
   ("Income", "bg-emerald-100 text-emerald-800 border-emerald-200"),
   ("Transfers", "bg-gray-100 text-gray-800 border-gray-200"),
   ("Miscellaneous", "bg-orange-100 text-orange-800 border-orange-200")]

/-- CATEGORY_ICONS table of ExpenseCategories.tsx. -/
def CATEGORY_ICONS : List (String × String) :=
  [("Food & Dining", "🍽️"),
   ("Transportation", "🚗"),
   ("Shopping", "🛍️"),
   ("Bills & Utilities", "💡"),
   ("Healthcare", "🏥"),
   ("Entertainment", "🎬"),
   ("Travel", "✈️"),
   ("Income", "💰"),
   ("Transfers", "🔄"),
   ("Miscellaneous", "📋")]

/-- The part_002 variant declares its own identical CATEGORY_COLORS object. -/
def CATEGORY_COLORS_P002 : List (String × String) :=
  [("Food & Dining", "bg-red-100 text-red-800 border-red-200"),
   ("Transportation", "bg-blue-100 text-blue-800 border-blue-200"),
   ("Shopping", "bg-purple-100 text-purple-800 border-purple-200"),
   ("Bills & Utilities", "bg-yellow-100 text-yellow-800 border-yellow-200"),
   ("Healthcare", "bg-green-100 text-green-800 border-green-200"),
   ("Entertainment", "bg-pink-100 text-pink-800 border-pink-200"),
   ("Travel", "bg-indigo-100 text-indigo-800 border-indigo-200"),
   ("Income", "bg-emerald-100 text-emerald-800 border-emerald-200"),
   ("Transfers", "bg-gray-100 text-gray-800 border-gray-200"),
   ("Miscellaneous", "bg-orange-100 text-orange-800 border-orange-200")]

/-- The part_002 variant declares its own identical CATEGORY_ICONS object. -/
def CATEGORY_ICONS_P002 : List (String × String) :=
  [("Food & Dining", "🍽️"),
   ("Transportation", "🚗"),
   ("Shopping", "🛍️"),
   ("Bills & Utilities", "💡"),
   ("Healthcare", "🏥"),
   ("Entertainment", "🎬"),
   ("Travel", "✈️"),
   ("Income", "💰"),
   ("Transfers", "🔄"),
   ("Miscellaneous", "📋")]

/-- Value of CATEGORY_COLORS.Miscellaneous, the fallback used by both
modules for unknown category names. -/
def miscellaneousColor : String := "bg-orange-100 text-orange-800 border-orange-200"

/-- Value of CATEGORY_ICONS.Miscellaneous. -/
def miscellaneousIcon : String := "📋"

/-- CATEGORY_COLORS[name] || CATEGORY_COLORS.Miscellaneous in
ExpenseCategories.tsx (line 99). -/
def colorFor (name : String) : String :=
  (CATEGORY_COLORS.lookup name).getD miscellaneousColor

/-- CATEGORY_ICONS[name] || CATEGORY_ICONS.Miscellaneous in
ExpenseCategories.tsx (line 100). -/
def iconFor (name : String) : String :=
  (CATEGORY_ICONS.lookup name).getD miscellaneousIcon

/-- CATEGORY_COLORS[name] || CATEGORY_COLORS.Miscellaneous in part_002
(line 102). -/
def colorForP002 (name : String) : String :=
  (CATEGORY_COLORS_P002.lookup name).getD miscellaneousColor

/-- CATEGORY_ICONS[name] || the literal clipboard icon in part_002
(line 103). -/
def iconForP002 (name : String) : String :=
  (CATEGORY_ICONS_P002.lookup name).getD "📋"

/-- The ten category names of the fixed enum (keys of CATEGORY_COLORS). -/
def categoryKeys : List String := CATEGORY_COLORS.map Prod.fst

/-- One categoryMap.get/categoryMap.set round of calculateCategorySummary:
if the category key is present its accumulated total and count are updated
in place, otherwise a fresh entry (amount, count 1) is appended at the end,
exactly the insertion-order semantics of the JS Map. -/
def addToMap : List (String × ℚ × ℕ) → String → ℚ → List (String × ℚ × ℕ)
  | [], cat, amt => [(cat, amt, 1)]
  | e :: rest, cat, amt =>
    if e.1 = cat then (e.1, e.2.1 + amt, e.2.2 + 1) :: rest
    else e :: addToMap rest cat amt

/-- The transactions.forEach loop filling categoryMap, parametrized by
which transactions contribute and by the contributed amount. The tsx
variant passes only debits with absolute amounts; part_002 passes every
transaction with its signed amount. -/
def buildCategoryMap (use : Transaction → Bool) (amt : Transaction → ℚ)
    (transactions : List Transaction) : List (String × ℚ × ℕ) :=
  transactions.foldl (fun m t => if use t then addToMap m t.category (amt t) else m) []

/-- calculateCategorySummary of ExpenseCategories.tsx (lines 82-102):
debit transactions only, absolute amounts, no percentage; the result is
sorted by the comparator (a, b) => b.total - a.total (stable). -/
def calculateCategorySummary (transactions : List Transaction) : List CategorySummary :=
  let categoryMap := buildCategoryMap (fun t => t.type == TxType.debit) (fun t => |t.amount|) transactions
  (categoryMap.map (fun e =>
    { name := e.1, total := e.2.1, count := e.2.2,
      color := colorFor e.1, icon := iconFor e.1 })).mergeSort
    (fun a b => decide (b.total ≤ a.total))

/-- transactions.reduce((sum, t) => sum + t.amount, 0) in part_002
(line 86): the grand total is the signed sum over ALL transactions. -/
def totalAmountOf (transactions : List Transaction) : ℚ :=
  transactions.foldl (fun sum t => sum + t.amount) 0

/-- calculateCategorySummary of part_002 (lines 84-105): every transaction
contributes its signed amount (no debit filter, no absolute value);
percentage is totalAmount > 0 ? total / totalAmount * 100 : 0. -/
def calculateCategorySummaryP002 (transactions : List Transaction) : List CategorySummaryP002 :=
  let totalAmount := totalAmountOf transactions
  let categoryMap := buildCategoryMap (fun _ => true) (fun t => t.amount) transactions
  (categoryMap.map (fun e =>
    { name := e.1, total := e.2.1, count := e.2.2,
      percentage := if 0 < totalAmount then e.2.1 / totalAmount * 100 else 0,
      color := colorForP002 e.1, icon := iconForP002 e.1 })).mergeSort
    (fun a b => decide (b.total ≤ a.total))

/-- The setTransactions updater of handleCategoryUpdate (both variants):
prev.map(t => t.id === transactionId ? { ...t, category: newCategory } : t). -/
def overrideTransactions (transactions : List Transaction)
    (transactionId newCategory : String) : List Transaction :=
  transactions.map (fun t =>
    if t.id == transactionId then { t with category := newCategory } else t)

/-- The component state touched by handleCategoryUpdate. -/
structure ExpensePageState where
  transactions : List Transaction
  categories : List CategorySummary
  editingTransaction : Option String
  deriving DecidableEq

/-- handleCategoryUpdate of ExpenseCategories.tsx (lines 104-117), success
path of the awaited backend call. The categories field is recomputed from
s.transactions: in the source, calculateCategorySummary(transactions) reads
the render-scope transactions binding, which still holds the pre-update
list when setCategories runs. -/
def handleCategoryUpdate (s : ExpensePageState)
    (transactionId newCategory : String) : ExpensePageState :=
  { transactions := overrideTransactions s.transactions transactionId newCategory,
    categories := calculateCategorySummary s.transactions,
    editingTransaction := none }

/-- totalExpenses of ExpenseCategories.tsx (line 119):
categories.reduce((sum, cat) => sum + cat.total, 0). -/
def totalExpenses (categories : List CategorySummary) : ℚ :=
  categories.foldl (fun sum cat => sum + cat.total) 0

/-- unclassifiedTransactions of ExpenseCategories.tsx (line 141):
transactions.filter(t => t.category === Miscellaneous || t.confidence < 0.7). -/
def unclassifiedTransactions (transactions : List Transaction) : List Transaction :=
  transactions.filter (fun t =>
    (t.category == "Miscellaneous") || decide (t.confidence < 7/10))

/-- The Classified figure of ExpenseCategories.tsx (line 203):
transactions.length - unclassifiedTransactions.length. -/
def classifiedCount (transactions : List Transaction) : ℕ :=
  transactions.length - (unclassifiedTransactions transactions).length

/-- The Classified figure of part_002 (line 211), in the default tiles view
where filteredTransactions equals transactions: it subtracts only the
transactions whose category is Miscellaneous, ignoring confidence. -/
def classifiedCountP002 (transactions : List Transaction) : ℕ :=
  transactions.length -
    (transactions.filter (fun t => t.category == "Miscellaneous")).length

/-- SearchResult of src/client/src/api/index.ts. -/
structure SearchResult where
  text : String
  metadata : List (String × String)
  similarity_score : ℚ
  deriving DecidableEq

/-- The store slice touched by handleSearch of SearchInterface.tsx. -/
structure SearchState where
  searchResults : List SearchResult
  isSearching : Bool
  searchQuery : String
  deriving DecidableEq

/-- Model of String.prototype.trim: drop leading and trailing whitespace
characters. -/
def jsTrim (s : String) : String :=
  ⟨((s.data.dropWhile Char.isWhitespace).reverse.dropWhile Char.isWhitespace).reverse⟩

/-- handleSearch of SearchInterface.tsx (lines 21-36). A blank query
(falsy query.trim()) returns before touching any state. Otherwise
setSearching(true) and setSearchQuery(query) run before the awaited
backend call, whose outcome is the backendResults argument: on success the
results are stored, on failure the results are set to []; the finally
block clears isSearching. -/
def handleSearch (s : SearchState) (query : String)
    (backendResults : Except String (List SearchResult)) : SearchState :=
  if jsTrim query = "" then s
  else
    match backendResults with
    | Except.ok results =>
      { searchResults := results, isSearching := false, searchQuery := query }
    | Except.error _ =>
      { searchResults := [], isSearching := false, searchQuery := query }

/-- Number of transactions of category c among the given transactions. -/
def categoryTxCount (transactions : List Transaction) (c : String) : ℕ :=
  (transactions.filter (fun t => t.category == c)).length

/-- Signed sum of the amounts of the transactions of category c. -/
def categoryAmountSum (transactions : List Transaction) (c : String) : ℚ :=
  ((transactions.filter (fun t => t.category == c)).map (fun t => t.amount)).sum

/-- Number of debit transactions of category c. -/
def debitCategoryTxCount (transactions : List Transaction) (c : String) : ℕ :=
  (transactions.filter (fun t => (t.type == TxType.debit) && (t.category == c))).length

/-- Sum of the absolute amounts of the debit transactions of category c. -/
def debitCategoryAbsSum (transactions : List Transaction) (c : String) : ℚ :=
  ((transactions.filter (fun t => (t.type == TxType.debit) && (t.category == c))).map
    (fun t => |t.amount|)).sum

/-- Number of debit transactions. -/
def numDebits (transactions : List Transaction) : ℕ :=
  (transactions.filter (fun t => t.type == TxType.debit)).length

/-- Sum of the absolute amounts of the debit transactions. -/
def debitAbsTotal (transactions : List Transaction) : ℚ :=
  ((transactions.filter (fun t => t.type == TxType.debit)).map (fun t => |t.amount|)).sum

/-- Concrete debit transaction with a below-threshold confidence score. -/
def lowConfTx : Transaction :=
  { id := "t9", date := "2024-01-05", description := "mystery store", amount := 42,
    type := TxType.debit, category := "Shopping", confidence := 1/2 }

/-- Concrete debit of 100 in category A. -/
def demoA1 : Transaction :=
  { id := "1", date := "2024-01-01", description := "a one", amount := 100,
    type := TxType.debit, category := "A", confidence := 1 }

/-- Concrete debit of 200 in category A. -/
def demoA2 : Transaction :=
  { id := "2", date := "2024-01-02", description := "a two", amount := 200,
    type := TxType.debit, category := "A", confidence := 1 }

/-- Concrete debit of 300 in category B. -/
def demoB1 : Transaction :=
  { id := "3", date := "2024-01-03", description := "b one", amount := 300,
    type := TxType.debit, category := "B", confidence := 1 }

/-- The transaction set of the summary-correctness acceptance example:
debit amounts [100, 200, 300] in categories [A, A, B]. -/
def demoTransactions : List Transaction := [demoA1, demoA2, demoB1]

/-- A credit transaction: under the claimed debit-only grouping it should
never reach a category summary. -/
def creditIncomeTx : Transaction :=
  { id := "c1", date := "2024-01-04", description := "salary", amount := 100,
    type := TxType.credit, category := "Income", confidence := 1 }

/-- Debit of 100 in category B, listed before mixB below. -/
def tieTxB : Transaction :=
  { id := "s1", date := "2024-01-06", description := "b tie", amount := 100,
    type := TxType.debit, category := "B", confidence := 1 }

/-- Debit of 100 in category A, listed after tieTxB: equal totals, so the
stable sort keeps B before A while alphabetical order would put A first. -/
def tieTxA : Transaction :=
  { id := "s2", date := "2024-01-07", description := "a tie", amount := 100,
    type := TxType.debit, category := "A", confidence := 1 }

/-- Debit transaction whose amount is 0, giving a zero grand total. -/
def zeroAmountTx : Transaction :=
  { id := "z1", date := "2024-01-08", description := "zero", amount := 0,
    type := TxType.debit, category := "Transfers", confidence := 1 }

/-- Debit of 100 categorized Food & Dining, used for the override scenario. -/
def foodTx : Transaction :=
  { id := "t1", date := "2024-01-09", description := "lunch", amount := 100,
    type := TxType.debit, category := "Food & Dining", confidence := 9/10 }

/-- Page state holding foodTx with its summaries, before an override. -/
def pageState0 : ExpensePageState :=
  { transactions := [foodTx],
    categories := calculateCategorySummary [foodTx],
    editingTransaction := none }

/-- First of two transactions sharing a description. -/
def frameTx1 : Transaction :=
  { id := "t1", date := "2024-01-10", description := "coffee", amount := 5,
    type := TxType.debit, category := "Food & Dining", confidence := 8/10 }

/-- Second transaction with the same description as frameTx1 but another id. -/
def frameTx2 : Transaction :=
  { id := "t2", date := "2024-01-11", description := "coffee", amount := 5,
    type := TxType.debit, category := "Food & Dining", confidence := 8/10 }

/-- A concrete search result. -/
def sampleResult : SearchResult :=
  { text := "chunk text", metadata := [("filename", "doc.pdf")], similarity_score := 9/10 }

/-- A concrete pre-search store state. -/
def searchState0 : SearchState :=
  { searchResults := [sampleResult], isSearching := true, searchQuery := "old query" }

/-- Keys of a category map, in insertion order. -/
def mapKeys (m : List (String × ℚ × ℕ)) : List String := m.map Prod.fst

/-- Sum of the accumulated totals of a category map. -/
def sumTotals (m : List (String × ℚ × ℕ)) : ℚ := (m.map (fun e => e.2.1)).sum

/-- Sum of the accumulated counts of a category map. -/
def sumCounts (m : List (String × ℚ × ℕ)) : ℕ := (m.map (fun e => e.2.2)).sum

/-- Accumulated total stored for key c (summed over the entries carrying
the key, which is a single entry once keys are distinct). -/
def totalIn (m : List (String × ℚ × ℕ)) (c : String) : ℚ :=
  ((m.filter (fun e => e.1 == c)).map (fun e => e.2.1)).sum

/-- Accumulated count stored for key c. -/
def countIn (m : List (String × ℚ × ℕ)) (c : String) : ℕ :=
  ((m.filter (fun e => e.1 == c)).map (fun e => e.2.2)).sum

/-- Alphabetical (lexicographic by character code) comparison used to
state the tie-break clause of the ordering claim. -/
def alphaLeAux : List Char → List Char → Bool
  | [], _ => true
  | _ :: _, [] => false
  | x :: xs, y :: ys =>
    if x < y then true else if x = y then alphaLeAux xs ys else false

/-- alphaLe a b: the string a is alphabetically at most b. -/
def alphaLe (a b : String) : Bool := alphaLeAux a.data b.data

lemma lookup_eq_none_of_not_mem {β : Type} (l : List (String × β)) (name : String)
    (h : name ∉ l.map Prod.fst) : l.lookup name = none := by
  induction l with
  | nil => rfl
  | cons e rest ih =>
    simp only [List.map_cons, List.mem_cons, not_or] at h
    have hb : (name == e.1) = false := beq_eq_false_iff_ne.mpr h.1
    simp [List.lookup, hb, ih h.2]

/-- C5: the two views disagree on the classified count. On a single debit
transaction of category Shopping with confidence 0.5, the tsx view
(excluding Miscellaneous OR confidence below 0.7) counts 0 classified
transactions while the part_002 view (excluding Miscellaneous only)
counts 1, so the two definitions are not the same function of the
transaction set. -/
theorem classified_counts_differ :
    classifiedCount [lowConfTx] = 0 ∧ classifiedCountP002 [lowConfTx] = 1 ∧
    classifiedCount [lowConfTx] ≠ classifiedCountP002 [lowConfTx] := by
  have h1 : classifiedCount [lowConfTx] = 0 := by
    norm_num [classifiedCount, unclassifiedTransactions, lowConfTx, List.filter_cons]
  have h2 : classifiedCountP002 [lowConfTx] = 1 := by
    simp [classifiedCountP002, lowConfTx, List.filter_cons]
  exact ⟨h1, h2, by omega⟩

/-- C7: both summary computations return the empty sequence on the empty
transaction list, and a zero grand total takes the guarded branch of the
percentage computation (percentage 0, no division fault): on a transaction
set whose signed grand total is 0 the single produced percentage is 0. -/
theorem summarize_empty_safe :
    calculateCategorySummary [] = [] ∧ calculateCategorySummaryP002 [] = [] ∧
    totalAmountOf [zeroAmountTx] = 0 ∧
    (calculateCategorySummaryP002 [zeroAmountTx]).map
      (fun s => s.percentage) = [0] := by
  refine ⟨?_, ?_, ?_, ?_⟩
  · simp [calculateCategorySummary, buildCategoryMap, List.mergeSort]
  · simp [calculateCategorySummaryP002, buildCategoryMap, totalAmountOf, List.mergeSort]
  · simp [totalAmountOf, zeroAmountTx]
  · simp [calculateCategorySummaryP002, buildCategoryMap, totalAmountOf, addToMap,
      zeroAmountTx, List.mergeSort]

/-- C8 counterexample: for the name Groceries, which is outside the fixed
ten-element enum, the raw table lookup misses, yet both the tsx module and
the part_002 module silently substitute the Miscellaneous color and icon
instead of failing: the fallback exists, and it exists in both modules. -/
theorem unknown_category_falls_back :
    CATEGORY_COLORS.lookup "Groceries" = none ∧
    colorFor "Groceries" = miscellaneousColor ∧
    iconFor "Groceries" = miscellaneousIcon ∧
    colorForP002 "Groceries" = miscellaneousColor ∧
    iconForP002 "Groceries" = miscellaneousIcon := by
  refine ⟨by decide, by decide, by decide, by decide, by decide⟩

/-- C8 amended: for every category name outside the fixed ten-element
enum, each of the four lookups (color and icon, in each of the two
modules) silently falls back to the Miscellaneous color or icon; the
fallback logic is duplicated, not fail-fast. -/
theorem unknown_category_fallback_everywhere (name : String)
    (h : name ∉ categoryKeys) :
    colorFor name = miscellaneousColor ∧
    iconFor name = miscellaneousIcon ∧
    colorForP002 name = miscellaneousColor ∧
    iconForP002 name = miscellaneousIcon := by
  have hc : CATEGORY_COLORS.lookup name = none :=
    lookup_eq_none_of_not_mem _ _ (by simpa [categoryKeys] using h)
  have hi : CATEGORY_ICONS.lookup name = none := by
    refine lookup_eq_none_of_not_mem _ _ ?_
    simp only [categoryKeys, CATEGORY_COLORS] at h
    simpa [CATEGORY_ICONS] using h
  have hc2 : CATEGORY_COLORS_P002.lookup name = none := by
    refine lookup_eq_none_of_not_mem _ _ ?_
    simp only [categoryKeys, CATEGORY_COLORS] at h
    simpa [CATEGORY_COLORS_P002] using h
  have hi2 : CATEGORY_ICONS_P002.lookup name = none := by
    refine lookup_eq_none_of_not_mem _ _ ?_
    simp only [categoryKeys, CATEGORY_COLORS] at h
    simpa [CATEGORY_ICONS_P002] using h
  exact ⟨by simp [colorFor, hc], by simp [iconFor, hi],
         by simp [colorForP002, hc2], by simp [iconForP002, hi2, miscellaneousIcon]⟩

/-- C8 witness: the amended fallback theorem applied at the concrete
unknown name Groceries. -/
theorem unknown_category_fallback_everywhere_witness :
    colorFor "Groceries" = miscellaneousColor ∧
    iconFor "Groceries" = miscellaneousIcon ∧
    colorForP002 "Groceries" = miscellaneousColor ∧
    iconForP002 "Groceries" = miscellaneousIcon :=
  unknown_category_fallback_everywhere "Groceries" (by decide)

/-- C10: when the backend search call fails, the handler stores an empty
result list and clears the searching flag (the failure is absorbed as zero
results, the store has no error field to surface it); when the trimmed
query is empty the handler returns before changing any state, for every
backend outcome. -/
theorem handleSearch_failure_absorbed (s : SearchState) (q : String) :
    (∀ err : String, jsTrim q ≠ "" →
      handleSearch s q (Except.error err) =
        { searchResults := [], isSearching := false, searchQuery := q }) ∧
    (∀ r : Except String (List SearchResult), jsTrim q = "" →
      handleSearch s q r = s) := by
  constructor
  · intro err hq
    simp [handleSearch, hq]
  · intro r hq
    simp [handleSearch, hq]

/-- C10 witness: a failing backend call on the query bills empties the
results and stops the spinner; the all-whitespace query leaves the state
untouched even when the backend would have answered. -/
theorem handleSearch_failure_absorbed_witness :
    handleSearch searchState0 "bills" (Except.error "network down") =
      { searchResults := [], isSearching := false, searchQuery := "bills" } ∧
    handleSearch searchState0 "   " (Except.ok [sampleResult]) = searchState0 :=
  ⟨(handleSearch_failure_absorbed searchState0 "bills").1 "network down" (by decide),
   (handleSearch_failure_absorbed searchState0 "   ").2 (Except.ok [sampleResult]) (by decide)⟩

/-- C6: a manual category override maps over the transaction list touching
only the transaction whose id matches: the list keeps its length, and
every position whose transaction has a different id (regardless of its
description) holds the exact same transaction afterwards. -/
theorem override_frame (txs : List Transaction) (tid c : String) (i : ℕ)
    (h : i < txs.length) (hne : (txs.get ⟨i, h⟩).id ≠ tid) :
    (overrideTransactions txs tid c).length = txs.length ∧
    (overrideTransactions txs tid c)[i]? = some (txs.get ⟨i, h⟩) := by
  have hb : ((txs.get ⟨i, h⟩).id == tid) = false := beq_eq_false_iff_ne.mpr hne
  constructor
  · simp [overrideTransactions]
  · simp only [List.get_eq_getElem] at hb
    simp only [overrideTransactions, List.getElem?_map, List.getElem?_eq_getElem h,
      Option.map_some]
    simp [hb]
    intro hid
    exact absurd hid (by simpa using hne)

/-- C6 witness: overriding frameTx1 (id t1) to Travel leaves frameTx2
(id t2, same description coffee) untouched at position 1. -/
theorem override_frame_witness :
    (overrideTransactions [frameTx1, frameTx2] "t1" "Travel").length = 2 ∧
    (overrideTransactions [frameTx1, frameTx2] "t1" "Travel")[1]? =
      some ([frameTx1, frameTx2].get ⟨1, by decide⟩) :=
  override_frame [frameTx1, frameTx2] "t1" "Travel" 1 (by decide)
    (by simp [frameTx2])


lemma sumTotals_cons (e) (m : List (String × ℚ × ℕ)) :
    sumTotals (e :: m) = e.2.1 + sumTotals m := by
  simp [sumTotals]

lemma sumCounts_cons (e) (m : List (String × ℚ × ℕ)) :
    sumCounts (e :: m) = e.2.2 + sumCounts m := by
  simp [sumCounts]

lemma sumTotals_addToMap (m : List (String × ℚ × ℕ)) (c : String) (a : ℚ) :
    sumTotals (addToMap m c a) = sumTotals m + a := by
  induction m with
  | nil => simp [addToMap, sumTotals]
  | cons e rest ih =>
    by_cases hc : e.1 = c
    · simp [addToMap, hc, sumTotals_cons]
      ring
    · simp [addToMap, hc, sumTotals_cons, ih]
      ring

lemma sumCounts_addToMap (m : List (String × ℚ × ℕ)) (c : String) (a : ℚ) :
    sumCounts (addToMap m c a) = sumCounts m + 1 := by
  induction m with
  | nil => simp [addToMap, sumCounts]
  | cons e rest ih =>
    by_cases hc : e.1 = c
    · simp [addToMap, hc, sumCounts_cons]
      omega
    · simp [addToMap, hc, sumCounts_cons, ih]
      omega

lemma totalIn_cons (e) (m : List (String × ℚ × ℕ)) (k : String) :
    totalIn (e :: m) k = (if e.1 = k then e.2.1 else 0) + totalIn m k := by
  simp only [totalIn, List.filter_cons]
  by_cases h : e.1 = k
  · simp [h]
  · simp [h, beq_eq_false_iff_ne.mpr h]

lemma countIn_cons (e) (m : List (String × ℚ × ℕ)) (k : String) :
    countIn (e :: m) k = (if e.1 = k then e.2.2 else 0) + countIn m k := by
  simp only [countIn, List.filter_cons]
  by_cases h : e.1 = k
  · simp [h]
  · simp [h, beq_eq_false_iff_ne.mpr h]

lemma totalIn_addToMap (m : List (String × ℚ × ℕ)) (c : String) (a : ℚ) (k : String) :
    totalIn (addToMap m c a) k = totalIn m k + (if c = k then a else 0) := by
  induction m with
  | nil =>
    simp [addToMap, totalIn_cons, totalIn]
    by_cases h : c = k <;> simp [h]
  | cons e rest ih =>
    by_cases hc : e.1 = c
    · subst hc
      simp [addToMap, totalIn_cons]
      by_cases h : e.1 = k <;> simp [h] <;> ring
    · simp [addToMap, hc, totalIn_cons, ih]
      ring

lemma countIn_addToMap (m : List (String × ℚ × ℕ)) (c : String) (a : ℚ) (k : String) :
    countIn (addToMap m c a) k = countIn m k + (if c = k then 1 else 0) := by
  induction m with
  | nil =>
    simp [addToMap, countIn_cons, countIn]
    by_cases h : c = k <;> simp [h]
  | cons e rest ih =>
    by_cases hc : e.1 = c
    · subst hc
      simp [addToMap, countIn_cons]
      by_cases h : e.1 = k <;> simp [h] <;> omega
    · simp [addToMap, hc, countIn_cons, ih]
      omega

lemma mapKeys_addToMap (m : List (String × ℚ × ℕ)) (c : String) (a : ℚ) :
    mapKeys (addToMap m c a) =
      if c ∈ mapKeys m then mapKeys m else mapKeys m ++ [c] := by
  induction m with
  | nil => simp [addToMap, mapKeys]
  | cons e rest ih =>
    by_cases hc : e.1 = c
    · simp [addToMap, hc, mapKeys]
    · have hne : c ≠ e.1 := fun h => hc h.symm
      simp only [addToMap, if_neg hc, mapKeys, List.map_cons] at ih ⊢
      rw [ih]
      by_cases hm : c ∈ List.map Prod.fst rest
      · simp [hm, hne]
      · simp [hm, hne]

lemma counts_pos_addToMap (m : List (String × ℚ × ℕ)) (c : String) (a : ℚ)
    (hm : ∀ e ∈ m, 1 ≤ e.2.2) : ∀ e ∈ addToMap m c a, 1 ≤ e.2.2 := by
  induction m with
  | nil =>
    intro e he
    simp [addToMap] at he
    simp [he]
  | cons hd rest ih =>
    intro e he
    by_cases hc : hd.1 = c
    · simp [addToMap, hc] at he
      rcases he with he | he
      · simp [he]
      · exact hm e (by simp [he])
    · simp [addToMap, hc] at he
      rcases he with he | he
      · exact hm e (by simp [he])
      · exact ih (fun x hx => hm x (by simp [hx])) e he

lemma mem_mapKeys_addToMap (m : List (String × ℚ × ℕ)) (c : String) (a : ℚ) (k : String) :
    k ∈ mapKeys (addToMap m c a) ↔ k ∈ mapKeys m ∨ k = c := by
  rw [mapKeys_addToMap]
  by_cases hm : c ∈ mapKeys m
  · simp only [if_pos hm]
    constructor
    · exact Or.inl
    · rintro (h | rfl)
      · exact h
      · exact hm
  · simp [if_neg hm, List.mem_append]

lemma nodup_mapKeys_addToMap (m : List (String × ℚ × ℕ)) (c : String) (a : ℚ)
    (h : (mapKeys m).Nodup) : (mapKeys (addToMap m c a)).Nodup := by
  rw [mapKeys_addToMap]
  by_cases hm : c ∈ mapKeys m
  · simpa [hm] using h
  · simp [hm, List.nodup_append, h]

lemma sumTotals_foldl (use : Transaction → Bool) (amt : Transaction → ℚ)
    (txs : List Transaction) :
    ∀ m, sumTotals (txs.foldl
      (fun m t => if use t then addToMap m t.category (amt t) else m) m)
        = sumTotals m + ((txs.filter use).map amt).sum := by
  induction txs with
  | nil => intro m; simp
  | cons t txs ih =>
    intro m
    cases hu : use t
    · simp [List.foldl_cons, List.filter_cons, hu, ih]
    · simp [List.foldl_cons, List.filter_cons, hu, ih, sumTotals_addToMap]
      ring

lemma sumCounts_foldl (use : Transaction → Bool) (amt : Transaction → ℚ)
    (txs : List Transaction) :
    ∀ m, sumCounts (txs.foldl
      (fun m t => if use t then addToMap m t.category (amt t) else m) m)
        = sumCounts m + (txs.filter use).length := by
  induction txs with
  | nil => intro m; simp
  | cons t txs ih =>
    intro m
    cases hu : use t
    · simp [List.foldl_cons, List.filter_cons, hu, ih]
    · simp [List.foldl_cons, List.filter_cons, hu, ih, sumCounts_addToMap]
      omega

lemma totalIn_foldl (use : Transaction → Bool) (amt : Transaction → ℚ)
    (txs : List Transaction) :
    ∀ m k, totalIn (txs.foldl
      (fun m t => if use t then addToMap m t.category (amt t) else m) m) k
        = totalIn m k
          + ((txs.filter (fun t => use t && (t.category == k))).map amt).sum := by
  induction txs with
  | nil => intro m k; simp
  | cons t txs ih =>
    intro m k
    cases hu : use t
    · simp [List.foldl_cons, List.filter_cons, hu, ih]
    · by_cases hk : t.category = k
      · simp [List.foldl_cons, List.filter_cons, hu, hk, ih, totalIn_addToMap]
        ring
      · simp [List.foldl_cons, List.filter_cons, hu, beq_eq_false_iff_ne.mpr hk,
          ih, totalIn_addToMap, hk]

lemma countIn_foldl (use : Transaction → Bool) (amt : Transaction → ℚ)
    (txs : List Transaction) :
    ∀ m k, countIn (txs.foldl
      (fun m t => if use t then addToMap m t.category (amt t) else m) m) k
        = countIn m k
          + (txs.filter (fun t => use t && (t.category == k))).length := by
  induction txs with
  | nil => intro m k; simp
  | cons t txs ih =>
    intro m k
    cases hu : use t
    · simp [List.foldl_cons, List.filter_cons, hu, ih]
    · by_cases hk : t.category = k
      · simp [List.foldl_cons, List.filter_cons, hu, hk, ih, countIn_addToMap]
        omega
      · simp [List.foldl_cons, List.filter_cons, hu, beq_eq_false_iff_ne.mpr hk,
          ih, countIn_addToMap, hk]

lemma mem_mapKeys_foldl (use : Transaction → Bool) (amt : Transaction → ℚ)
    (txs : List Transaction) :
    ∀ m k, k ∈ mapKeys (txs.foldl
      (fun m t => if use t then addToMap m t.category (amt t) else m) m)
        ↔ k ∈ mapKeys m ∨ ∃ t ∈ txs, use t = true ∧ t.category = k := by
  induction txs with
  | nil => intro m k; simp
  | cons t txs ih =>
    intro m k
    cases hu : use t
    · simp only [List.foldl_cons, hu, Bool.false_eq_true, if_false, ih,
        List.mem_cons]
      constructor
      · rintro (h | h)
        · exact Or.inl h
        · exact Or.inr ⟨h.choose, Or.inr h.choose_spec.1, h.choose_spec.2.1, h.choose_spec.2.2⟩
      · rintro (h | ⟨t2, (rfl | ht2), hup, hcat⟩)
        · exact Or.inl h
        · rw [hu] at hup
          exact absurd hup (by simp)
        · exact Or.inr ⟨t2, ht2, hup, hcat⟩
    · simp only [List.foldl_cons, hu, if_true, ih, mem_mapKeys_addToMap,
        List.mem_cons]
      constructor
      · rintro ((h | h) | h)
        · exact Or.inl h
        · exact Or.inr ⟨t, Or.inl rfl, hu, h.symm⟩
        · exact Or.inr ⟨h.choose, Or.inr h.choose_spec.1, h.choose_spec.2.1, h.choose_spec.2.2⟩
      · rintro (h | ⟨t2, (rfl | ht2), hup, hcat⟩)
        · exact Or.inl (Or.inl h)
        · exact Or.inl (Or.inr hcat.symm)
        · exact Or.inr ⟨t2, ht2, hup, hcat⟩

lemma nodup_mapKeys_foldl (use : Transaction → Bool) (amt : Transaction → ℚ)
    (txs : List Transaction) :
    ∀ m, (mapKeys m).Nodup → (mapKeys (txs.foldl
      (fun m t => if use t then addToMap m t.category (amt t) else m) m)).Nodup := by
  induction txs with
  | nil => intro m h; simpa using h
  | cons t txs ih =>
    intro m h
    cases hu : use t
    · simpa [List.foldl_cons, hu] using ih m h
    · simpa [List.foldl_cons, hu] using
        ih (addToMap m t.category (amt t)) (nodup_mapKeys_addToMap m _ _ h)

lemma counts_pos_foldl (use : Transaction → Bool) (amt : Transaction → ℚ)
    (txs : List Transaction) :
    ∀ m, (∀ e ∈ m, 1 ≤ e.2.2) → ∀ e ∈ txs.foldl
      (fun m t => if use t then addToMap m t.category (amt t) else m) m, 1 ≤ e.2.2 := by
  induction txs with
  | nil => intro m h; simpa using h
  | cons t txs ih =>
    intro m h
    cases hu : use t
    · simpa [List.foldl_cons, hu] using ih m h
    · simpa [List.foldl_cons, hu] using
        ih (addToMap m t.category (amt t)) (counts_pos_addToMap m _ _ h)

lemma totalIn_of_not_mem (m : List (String × ℚ × ℕ)) (k : String)
    (h : k ∉ mapKeys m) : totalIn m k = 0 ∧ countIn m k = 0 := by
  induction m with
  | nil => simp [totalIn, countIn]
  | cons e rest ih =>
    simp only [mapKeys, List.map_cons, List.mem_cons, not_or] at h
    have hne : e.1 ≠ k := fun hh => h.1 hh.symm
    have hr := ih (by simpa [mapKeys] using h.2)
    simp [totalIn_cons, countIn_cons, hne, hr.1, hr.2]

lemma mem_entry_values (m : List (String × ℚ × ℕ)) (hnd : (mapKeys m).Nodup) :
    ∀ e ∈ m, e.2.1 = totalIn m e.1 ∧ e.2.2 = countIn m e.1 := by
  induction m with
  | nil => simp
  | cons hd rest ih =>
    have hnd2 : (hd.1 :: mapKeys rest).Nodup := hnd
    have hcons := List.nodup_cons.mp hnd2
    have hhd : hd.1 ∉ mapKeys rest := hcons.1
    have hnd' : (mapKeys rest).Nodup := hcons.2
    intro e he
    rcases List.mem_cons.mp he with rfl | he'
    · have h0 := totalIn_of_not_mem rest e.1 hhd
      simp [totalIn_cons, countIn_cons, h0.1, h0.2]
    · have hek : e.1 ∈ mapKeys rest := List.mem_map_of_mem Prod.fst he'
      have hne : hd.1 ≠ e.1 := fun hh => hhd (hh ▸ hek)
      have hr := ih hnd' e he'
      simp [totalIn_cons, countIn_cons, hne, hr.1, hr.2]

lemma nodup_mapKeys_buildCategoryMap (use : Transaction → Bool)
    (amt : Transaction → ℚ) (txs : List Transaction) :
    (mapKeys (buildCategoryMap use amt txs)).Nodup :=
  nodup_mapKeys_foldl use amt txs [] (by simp [mapKeys])

lemma counts_pos_buildCategoryMap (use : Transaction → Bool)
    (amt : Transaction → ℚ) (txs : List Transaction) :
    ∀ e ∈ buildCategoryMap use amt txs, 1 ≤ e.2.2 :=
  counts_pos_foldl use amt txs [] (by simp)

lemma totalIn_buildCategoryMap (use : Transaction → Bool)
    (amt : Transaction → ℚ) (txs : List Transaction) (k : String) :
    totalIn (buildCategoryMap use amt txs) k
      = ((txs.filter (fun t => use t && (t.category == k))).map amt).sum := by
  unfold buildCategoryMap
  rw [totalIn_foldl]
  simp [totalIn]

lemma countIn_buildCategoryMap (use : Transaction → Bool)
    (amt : Transaction → ℚ) (txs : List Transaction) (k : String) :
    countIn (buildCategoryMap use amt txs) k
      = (txs.filter (fun t => use t && (t.category == k))).length := by
  unfold buildCategoryMap
  rw [countIn_foldl]
  simp [countIn]

lemma sumTotals_buildCategoryMap (use : Transaction → Bool)
    (amt : Transaction → ℚ) (txs : List Transaction) :
    sumTotals (buildCategoryMap use amt txs) = ((txs.filter use).map amt).sum := by
  unfold buildCategoryMap
  rw [sumTotals_foldl]
  simp [sumTotals]

lemma sumCounts_buildCategoryMap (use : Transaction → Bool)
    (amt : Transaction → ℚ) (txs : List Transaction) :
    sumCounts (buildCategoryMap use amt txs) = (txs.filter use).length := by
  unfold buildCategoryMap
  rw [sumCounts_foldl]
  simp [sumCounts]

lemma mem_mapKeys_buildCategoryMap (use : Transaction → Bool)
    (amt : Transaction → ℚ) (txs : List Transaction) (k : String) :
    k ∈ mapKeys (buildCategoryMap use amt txs)
      ↔ ∃ t ∈ txs, use t = true ∧ t.category = k := by
  unfold buildCategoryMap
  rw [mem_mapKeys_foldl]
  simp [mapKeys]

lemma calculateCategorySummary_eq (txs : List Transaction) :
    calculateCategorySummary txs =
      ((buildCategoryMap (fun t => t.type == TxType.debit) (fun t => |t.amount|) txs).map
        (fun e => { name := e.1, total := e.2.1, count := e.2.2,
                    color := colorFor e.1, icon := iconFor e.1 })).mergeSort
        (fun a b => decide (b.total ≤ a.total)) := rfl

lemma calculateCategorySummaryP002_eq (txs : List Transaction) :
    calculateCategorySummaryP002 txs =
      ((buildCategoryMap (fun _ => true) (fun t => t.amount) txs).map
        (fun e => { name := e.1, total := e.2.1, count := e.2.2,
                    percentage := if 0 < totalAmountOf txs
                      then e.2.1 / totalAmountOf txs * 100 else 0,
                    color := colorForP002 e.1, icon := iconForP002 e.1 })).mergeSort
        (fun a b => decide (b.total ≤ a.total)) := rfl

lemma mem_calculateCategorySummary (txs : List Transaction) (s : CategorySummary) :
    s ∈ calculateCategorySummary txs ↔
      ∃ e ∈ buildCategoryMap (fun t => t.type == TxType.debit) (fun t => |t.amount|) txs,
        ({ name := e.1, total := e.2.1, count := e.2.2,
           color := colorFor e.1, icon := iconFor e.1 } : CategorySummary) = s := by
  rw [calculateCategorySummary_eq,
    (List.mergeSort_perm _ _).mem_iff, List.mem_map]

lemma mem_calculateCategorySummaryP002 (txs : List Transaction) (s : CategorySummaryP002) :
    s ∈ calculateCategorySummaryP002 txs ↔
      ∃ e ∈ buildCategoryMap (fun _ => true) (fun t => t.amount) txs,
        ({ name := e.1, total := e.2.1, count := e.2.2,
           percentage := if 0 < totalAmountOf txs
             then e.2.1 / totalAmountOf txs * 100 else 0,
           color := colorForP002 e.1, icon := iconForP002 e.1 } : CategorySummaryP002) = s := by
  rw [calculateCategorySummaryP002_eq,
    (List.mergeSort_perm _ _).mem_iff, List.mem_map]

lemma foldl_add_total (cats : List CategorySummary) :
    ∀ a : ℚ, cats.foldl (fun sum cat => sum + cat.total) a
      = a + (cats.map (fun s => s.total)).sum := by
  induction cats with
  | nil => intro a; simp
  | cons c cats ih =>
    intro a
    simp [List.foldl_cons, ih]
    ring

lemma totalExpenses_eq_sum (cats : List CategorySummary) :
    totalExpenses cats = (cats.map (fun s => s.total)).sum := by
  unfold totalExpenses
  rw [foldl_add_total]
  ring

lemma pairwise_total_desc_mergeSort {α : Type} (f : α → ℚ) (l : List α) :
    (l.mergeSort (fun a b => decide (f b ≤ f a))).Pairwise (fun a b => f b ≤ f a) := by
  have h := @List.sorted_mergeSort α (fun a b => decide (f b ≤ f a))
    (by
      intro a b c hab hbc
      exact decide_eq_true (le_trans (of_decide_eq_true hbc) (of_decide_eq_true hab)))
    (by
      intro a b
      rcases le_total (f b) (f a) with h | h
      · simp [h]
      · simp [h]) l
  exact h.imp (fun hab => of_decide_eq_true hab)

/-- C3 amended: for every transaction list, both summary computations
return a sequence ordered by total descending (non-increasing totals).
The tie order is the stable-sort insertion order of the categories, not
the alphabetical order claimed by the spec (see the counterexample). -/
theorem summaries_sorted_by_total_desc (txs : List Transaction) :
    (calculateCategorySummary txs).Pairwise (fun a b => b.total ≤ a.total) ∧
    (calculateCategorySummaryP002 txs).Pairwise (fun a b => b.total ≤ a.total) := by
  constructor
  · rw [calculateCategorySummary_eq]
    exact pairwise_total_desc_mergeSort (fun s : CategorySummary => s.total) _
  · rw [calculateCategorySummaryP002_eq]
    exact pairwise_total_desc_mergeSort (fun s : CategorySummaryP002 => s.total) _

/-- C9: mass conservation for calculateCategorySummary of
ExpenseCategories.tsx. The totals of the returned summaries sum to the
sum of absolute amounts of the debit transactions, the counts sum to the
number of debit transactions, the displayed totalExpenses figure equals
that same sum, and every returned summary has count at least 1. -/
theorem summary_conserves_mass (txs : List Transaction) :
    ((calculateCategorySummary txs).map (fun s => s.total)).sum = debitAbsTotal txs ∧
    ((calculateCategorySummary txs).map (fun s => s.count)).sum = numDebits txs ∧
    totalExpenses (calculateCategorySummary txs) = debitAbsTotal txs ∧
    ∀ s ∈ calculateCategorySummary txs, 1 ≤ s.count := by
  have hperm := List.mergeSort_perm
    ((buildCategoryMap (fun t => t.type == TxType.debit) (fun t => |t.amount|) txs).map
      (fun e => ({ name := e.1, total := e.2.1, count := e.2.2,
                   color := colorFor e.1, icon := iconFor e.1 } : CategorySummary)))
    (fun a b => decide (b.total ≤ a.total))
  have htot : ((calculateCategorySummary txs).map (fun s => s.total)).sum
      = debitAbsTotal txs := by
    rw [calculateCategorySummary_eq, (hperm.map (fun s => s.total)).sum_eq, List.map_map]
    have h2 := sumTotals_buildCategoryMap (fun t => t.type == TxType.debit)
      (fun t => |t.amount|) txs
    simpa [sumTotals, Function.comp, debitAbsTotal] using h2
  have hcnt : ((calculateCategorySummary txs).map (fun s => s.count)).sum
      = numDebits txs := by
    rw [calculateCategorySummary_eq, (hperm.map (fun s => s.count)).sum_eq, List.map_map]
    have h2 := sumCounts_buildCategoryMap (fun t => t.type == TxType.debit)
      (fun t => |t.amount|) txs
    simpa [sumCounts, Function.comp, numDebits] using h2
  refine ⟨htot, hcnt, ?_, ?_⟩
  · rw [totalExpenses_eq_sum]
    exact htot
  · intro s hs
    obtain ⟨e, he, rfl⟩ := (mem_calculateCategorySummary txs s).mp hs
    simpa using counts_pos_buildCategoryMap _ _ txs e he

/-- C1 amended: per-variant grouping characterization. In the part_002
variant every transaction is grouped (credits included, signed amounts):
each summary carries the signed amount sum and the transaction count of
its category, and its percentage is total / grandTotal * 100 when the
signed grand total is positive and 0 otherwise. In the tsx variant only
debit transactions are grouped, with absolute amounts, and no percentage
field exists. The summaries cover exactly the categories occurring among
the grouped transactions. -/
theorem summary_grouping_amended (txs : List Transaction) :
    (∀ s ∈ calculateCategorySummaryP002 txs,
      s.total = categoryAmountSum txs s.name ∧
      s.count = categoryTxCount txs s.name ∧
      s.percentage = if 0 < totalAmountOf txs
        then s.total / totalAmountOf txs * 100 else 0) ∧
    (∀ s ∈ calculateCategorySummary txs,
      s.total = debitCategoryAbsSum txs s.name ∧
      s.count = debitCategoryTxCount txs s.name) ∧
    (∀ c : String, (∃ s ∈ calculateCategorySummaryP002 txs, s.name = c) ↔
      ∃ t ∈ txs, t.category = c) ∧
    (∀ c : String, (∃ s ∈ calculateCategorySummary txs, s.name = c) ↔
      ∃ t ∈ txs, (t.type == TxType.debit) = true ∧ t.category = c) := by
  refine ⟨?_, ?_, ?_, ?_⟩
  · intro s hs
    obtain ⟨e, he, rfl⟩ := (mem_calculateCategorySummaryP002 txs s).mp hs
    have hv := mem_entry_values _ (nodup_mapKeys_buildCategoryMap (fun _ => true)
      (fun t => t.amount) txs) e he
    refine ⟨?_, ?_, ?_⟩
    · have ht := totalIn_buildCategoryMap (fun _ => true) (fun t => t.amount) txs e.1
      simp only []
      rw [hv.1, ht]
      simp [categoryAmountSum]
    · have hc := countIn_buildCategoryMap (fun _ => true) (fun t => t.amount) txs e.1
      simp only []
      rw [hv.2, hc]
      simp [categoryTxCount]
    · simp only []
  · intro s hs
    obtain ⟨e, he, rfl⟩ := (mem_calculateCategorySummary txs s).mp hs
    have hv := mem_entry_values _ (nodup_mapKeys_buildCategoryMap
      (fun t => t.type == TxType.debit) (fun t => |t.amount|) txs) e he
    constructor
    · have ht := totalIn_buildCategoryMap (fun t => t.type == TxType.debit)
        (fun t => |t.amount|) txs e.1
      simp only []
      rw [hv.1, ht]
      simp [debitCategoryAbsSum]
    · have hc := countIn_buildCategoryMap (fun t => t.type == TxType.debit)
        (fun t => |t.amount|) txs e.1
      simp only []
      rw [hv.2, hc]
      simp [debitCategoryTxCount]
  · intro c
    constructor
    · rintro ⟨s, hs, rfl⟩
      obtain ⟨e, he, rfl⟩ := (mem_calculateCategorySummaryP002 txs s).mp hs
      have hk : e.1 ∈ mapKeys (buildCategoryMap (fun _ => true) (fun t => t.amount) txs) :=
        List.mem_map_of_mem Prod.fst he
      have := (mem_mapKeys_buildCategoryMap (fun _ => true) (fun t => t.amount) txs e.1).mp hk
      simpa using this
    · rintro ⟨t, ht, hcat⟩
      have hk : c ∈ mapKeys (buildCategoryMap (fun _ => true) (fun t => t.amount) txs) :=
        (mem_mapKeys_buildCategoryMap (fun _ => true) (fun t => t.amount) txs c).mpr
          ⟨t, ht, rfl, hcat⟩
      obtain ⟨e, he, hec⟩ := List.mem_map.mp hk
      refine ⟨_, (mem_calculateCategorySummaryP002 txs _).mpr ⟨e, he, rfl⟩, hec⟩
  · intro c
    constructor
    · rintro ⟨s, hs, rfl⟩
      obtain ⟨e, he, rfl⟩ := (mem_calculateCategorySummary txs s).mp hs
      have hk : e.1 ∈ mapKeys (buildCategoryMap (fun t => t.type == TxType.debit)
          (fun t => |t.amount|) txs) :=
        List.mem_map_of_mem Prod.fst he
      have := (mem_mapKeys_buildCategoryMap (fun t => t.type == TxType.debit)
        (fun t => |t.amount|) txs e.1).mp hk
      simpa using this
    · rintro ⟨t, ht, hdeb, hcat⟩
      have hk : c ∈ mapKeys (buildCategoryMap (fun t => t.type == TxType.debit)
          (fun t => |t.amount|) txs) :=
        (mem_mapKeys_buildCategoryMap (fun t => t.type == TxType.debit)
          (fun t => |t.amount|) txs c).mpr ⟨t, ht, hdeb, hcat⟩
      obtain ⟨e, he, hec⟩ := List.mem_map.mp hk
      refine ⟨_, (mem_calculateCategorySummary txs _).mpr ⟨e, he, rfl⟩, hec⟩

lemma tsx_demo_map_eval :
    buildCategoryMap (fun t => t.type == TxType.debit) (fun t => |t.amount|)
      demoTransactions = [("A", 300, 2), ("B", 300, 1)] := by
  have hab : ¬ ("A" = "B") := by decide
  simp [buildCategoryMap, addToMap, demoTransactions, demoA1, demoA2, demoB1, hab]
  norm_num

lemma p002_demo_map_eval :
    buildCategoryMap (fun _ => true) (fun t => t.amount) demoTransactions
      = [("A", 300, 2), ("B", 300, 1)] := by
  have hab : ¬ ("A" = "B") := by decide
  simp [buildCategoryMap, addToMap, demoTransactions, demoA1, demoA2, demoB1, hab]
  norm_num

lemma tsx_demo_eval : calculateCategorySummary demoTransactions =
    [{ name := "A", total := 300, count := 2,
       color := miscellaneousColor, icon := "📋" },
     { name := "B", total := 300, count := 1,
       color := miscellaneousColor, icon := "📋" }] := by
  have hca : colorFor "A" = miscellaneousColor := by decide
  have hcb : colorFor "B" = miscellaneousColor := by decide
  have hia : iconFor "A" = "📋" := by decide
  have hib : iconFor "B" = "📋" := by decide
  have h33 : ((300:ℚ) ≤ 300) := le_refl _
  rw [calculateCategorySummary_eq, tsx_demo_map_eval]
  simp [List.mergeSort, List.merge, h33, hca, hcb, hia, hib]

lemma p002_demo_eval : calculateCategorySummaryP002 demoTransactions =
    [{ name := "A", total := 300, count := 2, percentage := 50,
       color := miscellaneousColor, icon := "📋" },
     { name := "B", total := 300, count := 1, percentage := 50,
       color := miscellaneousColor, icon := "📋" }] := by
  have hca : colorForP002 "A" = miscellaneousColor := by decide
  have hcb : colorForP002 "B" = miscellaneousColor := by decide
  have hia : iconForP002 "A" = "📋" := by decide
  have hib : iconForP002 "B" = "📋" := by decide
  have h33 : ((300:ℚ) ≤ 300) := le_refl _
  have htot : totalAmountOf demoTransactions = 600 := by
    simp [totalAmountOf, demoTransactions, demoA1, demoA2, demoB1]
    norm_num
  rw [calculateCategorySummaryP002_eq, p002_demo_map_eval, htot]
  simp [List.mergeSort, List.merge, h33, hca, hcb, hia, hib]
  norm_num

lemma tie_map_eval :
    buildCategoryMap (fun t => t.type == TxType.debit) (fun t => |t.amount|)
      [tieTxB, tieTxA] = [("B", 100, 1), ("A", 100, 1)] := by
  have hba : ¬ ("B" = "A") := by decide
  simp [buildCategoryMap, addToMap, tieTxB, tieTxA, hba]

lemma tie_eval : calculateCategorySummary [tieTxB, tieTxA] =
    [{ name := "B", total := 100, count := 1,
       color := miscellaneousColor, icon := "📋" },
     { name := "A", total := 100, count := 1,
       color := miscellaneousColor, icon := "📋" }] := by
  have hca : colorFor "A" = miscellaneousColor := by decide
  have hcb : colorFor "B" = miscellaneousColor := by decide
  have hia : iconFor "A" = "📋" := by decide
  have hib : iconFor "B" = "📋" := by decide
  have h11 : ((100:ℚ) ≤ 100) := le_refl _
  rw [calculateCategorySummary_eq, tie_map_eval]
  simp [List.mergeSort, List.merge, h11, hca, hcb, hia, hib]


/-- C3 counterexample: on debits of equal amount 100 in categories B
then A, the computed order keeps B (first occurrence) before A although
alphabetical order would put A first, so the claimed alphabetical tie
break is false for this input. -/
theorem summaries_tie_order_counterexample :
    (calculateCategorySummary [tieTxB, tieTxA]).map (fun s => (s.name, s.total)) =
      [("B", 100), ("A", 100)] ∧
    alphaLe "B" "A" = false ∧
    ¬ (calculateCategorySummary [tieTxB, tieTxA]).Pairwise
        (fun a b => b.total < a.total ∨
          (a.total = b.total ∧ alphaLe a.name b.name = true)) := by
  refine ⟨by rw [tie_eval]; simp, by decide, ?_⟩
  rw [tie_eval]
  intro hpw
  have h := (List.pairwise_cons.mp hpw).1
    { name := "A", total := 100, count := 1,
      color := miscellaneousColor, icon := "📋" }
    (by simp)
  have hf : alphaLe "B" "A" = false := by decide
  norm_num [hf] at h

/-- C1 counterexample: on a single credit transaction of 100 in
category Income, the part_002 summary computation (the one that computes
the percentage the claim describes) produces the summary (Income, 100, 1)
although the claimed debit-only grouping would produce no summary at all:
the debit count and debit absolute sum of that category are 0. -/
theorem summary_includes_credits_counterexample :
    (calculateCategorySummaryP002 [creditIncomeTx]).map
      (fun s => (s.name, s.total, s.count)) = [("Income", 100, 1)] ∧
    debitCategoryTxCount [creditIncomeTx] "Income" = 0 ∧
    debitCategoryAbsSum [creditIncomeTx] "Income" = 0 := by
  have hmap : buildCategoryMap (fun _ => true) (fun t => t.amount) [creditIncomeTx]
      = [("Income", 100, 1)] := by
    simp [buildCategoryMap, addToMap, creditIncomeTx]
  have hdc : (TxType.credit == TxType.debit) = false := by decide
  refine ⟨?_, ?_, ?_⟩
  · rw [calculateCategorySummaryP002_eq, hmap]
    simp [List.mergeSort]
  · simp [debitCategoryTxCount, creditIncomeTx, List.filter_cons, hdc]
  · simp [debitCategoryAbsSum, creditIncomeTx, List.filter_cons, hdc]

lemma food_eval : calculateCategorySummary [foodTx] =
    [{ name := "Food & Dining", total := 100, count := 1,
       color := "bg-red-100 text-red-800 border-red-200", icon := "🍽️" }] := by
  have hc : colorFor "Food & Dining" = "bg-red-100 text-red-800 border-red-200" := by
    decide
  have hi : iconFor "Food & Dining" = "🍽️" := by decide
  have hmap : buildCategoryMap (fun t => t.type == TxType.debit) (fun t => |t.amount|)
      [foodTx] = [("Food & Dining", 100, 1)] := by
    simp [buildCategoryMap, addToMap, foodTx]
  rw [calculateCategorySummary_eq, hmap]
  simp [List.mergeSort, hc, hi]

lemma shop_eval : calculateCategorySummary [{ foodTx with category := "Shopping" }] =
    [{ name := "Shopping", total := 100, count := 1,
       color := "bg-purple-100 text-purple-800 border-purple-200", icon := "🛍️" }] := by
  have hc : colorFor "Shopping" = "bg-purple-100 text-purple-800 border-purple-200" := by
    decide
  have hi : iconFor "Shopping" = "🛍️" := by decide
  have hmap : buildCategoryMap (fun t => t.type == TxType.debit) (fun t => |t.amount|)
      [{ foodTx with category := "Shopping" }] = [("Shopping", 100, 1)] := by
    simp [buildCategoryMap, addToMap, foodTx]
  rw [calculateCategorySummary_eq, hmap]
  simp [List.mergeSort, hc, hi]

/-- C2 failing input: overriding the single transaction t1 from
Food and Dining to Shopping updates the transaction list, but the summary
recomputation inside the handler reads the pre-update list, so the held
categories are those of the old transaction set and differ from the
summaries of the updated set the claim requires. -/
theorem override_recomputes_from_stale_list :
    (handleCategoryUpdate pageState0 "t1" "Shopping").transactions =
      [{ foodTx with category := "Shopping" }] ∧
    (handleCategoryUpdate pageState0 "t1" "Shopping").categories =
      calculateCategorySummary [foodTx] ∧
    (handleCategoryUpdate pageState0 "t1" "Shopping").categories ≠
      calculateCategorySummary
        ((handleCategoryUpdate pageState0 "t1" "Shopping").transactions) := by
  have htr : (handleCategoryUpdate pageState0 "t1" "Shopping").transactions =
      [{ foodTx with category := "Shopping" }] := by
    simp [handleCategoryUpdate, pageState0, overrideTransactions, foodTx]
  have hcat : (handleCategoryUpdate pageState0 "t1" "Shopping").categories =
      calculateCategorySummary [foodTx] := by
    simp [handleCategoryUpdate, pageState0]
  refine ⟨htr, hcat, ?_⟩
  rw [htr, hcat, food_eval, shop_eval]
  have hne : ¬ ("Food & Dining" = "Shopping") := by decide
  simp [hne]

/-- C4: on debit amounts [100, 200, 300] in categories [A, A, B], the
part_002 summary computation yields exactly A (total 300, count 2,
percentage 50) before B (total 300, count 1, percentage 50), and the tsx
computation yields the same names, totals and counts in the same order. -/
theorem summary_acceptance_example :
    calculateCategorySummaryP002 demoTransactions =
      [{ name := "A", total := 300, count := 2, percentage := 50,
         color := miscellaneousColor, icon := "📋" },
       { name := "B", total := 300, count := 1, percentage := 50,
         color := miscellaneousColor, icon := "📋" }] ∧
    calculateCategorySummary demoTransactions =
      [{ name := "A", total := 300, count := 2,
         color := miscellaneousColor, icon := "📋" },
       { name := "B", total := 300, count := 1,
         color := miscellaneousColor, icon := "📋" }] :=
  ⟨p002_demo_eval, tsx_demo_eval⟩

/-- C1 witness: the amended grouping theorem instantiated at the
demo transaction set and its category A summary. -/
theorem summary_grouping_amended_witness :
    (300 : ℚ) = categoryAmountSum demoTransactions "A" ∧
    (2 : ℕ) = categoryTxCount demoTransactions "A" ∧
    (50 : ℚ) = (if 0 < totalAmountOf demoTransactions
      then 300 / totalAmountOf demoTransactions * 100 else 0) := by
  have h := (summary_grouping_amended demoTransactions).1
    { name := "A", total := 300, count := 2, percentage := 50,
      color := miscellaneousColor, icon := "📋" }
    (by rw [p002_demo_eval]; simp)
  simpa using h

/-- C9 witness: mass conservation instantiated at the demo transaction
set, with the positive-count clause discharged at its category A summary. -/
theorem summary_conserves_mass_witness :
    ((calculateCategorySummary demoTransactions).map (fun s => s.total)).sum
      = debitAbsTotal demoTransactions ∧
    1 ≤ ({ name := "A", total := 300, count := 2,
           color := miscellaneousColor, icon := "📋" } : CategorySummary).count :=
  ⟨(summary_conserves_mass demoTransactions).1,
   (summary_conserves_mass demoTransactions).2.2.2 _ (by rw [tsx_demo_eval]; simp)⟩
